import Mathlib

/-!
Shallow embedding of the puzzle CAPTCHA core (repository `puzzle`):
watermark generation (`src/src/utils/createWatermarks.js`), the timing
heuristics, the selection scorer and the session state machine
(`src/src/App.jsx`, the draft with attempt tracking, lines 261-641).
JS numbers (timestamps, accuracies) are modelled as rationals; the
ambient `Math.random()` stream is modelled as explicit oracle
functions supplying one arbitrary natural number per call site.
-/

namespace Captcha

/-- Watermark shapes: `const shapes = ["triangle", "square", "circle"]`
(createWatermarks.js line 20). -/
inductive Shape where
  | triangle
  | square
  | circle
deriving DecidableEq, Repr

/-- Watermark colors: `const colors = ["red", "green", "blue"]`
(createWatermarks.js line 21). -/
inductive Color where
  | red
  | green
  | blue
deriving DecidableEq, Repr

/-- One watermark `{ idx, shape, color }` (createWatermarks.js lines 24-28). -/
structure Watermark where
  idx : Nat
  shape : Shape
  color : Color
deriving DecidableEq, Repr

/-- JS `shapes[Math.floor(Math.random() * shapes.length)]`: the random draw
is an arbitrary natural `n` and the element picked is `shapes[n % 3]`. -/
def shapeOf (n : Nat) : Shape :=
  match n % 3 with
  | 0 => Shape.triangle
  | 1 => Shape.square
  | _ => Shape.circle

/-- JS `colors[Math.floor(Math.random() * colors.length)]`, modelled like
`shapeOf`. -/
def colorOf (n : Nat) : Color :=
  match n % 3 with
  | 0 => Color.red
  | 1 => Color.green
  | _ => Color.blue

/-- One step of the Fisher-Yates loop body
`[indices[i], indices[j]] = [indices[j], indices[i]]`
(createWatermarks.js line 13), on the array modelled as a function from
positions to values. -/
def swapF (f : Nat → Nat) (i j : Nat) : Nat → Nat :=
  fun k => if k = i then f j else if k = j then f i else f k

/-- The Fisher-Yates loop
`for (let i = indices.length - 1; i > 0; i--) { const j = Math.floor(Math.random() * (i + 1)); swap }`
(createWatermarks.js lines 11-14).  `shuffleFrom rj i f` runs the loop for
positions `i, i-1, ..., 1`; the random draw at position `i` is modelled as
`rj i % (i + 1)`, an arbitrary value in `[0, i]` exactly as
`Math.floor(Math.random() * (i + 1))` is. -/
def shuffleFrom (rj : Nat → Nat) : Nat → (Nat → Nat) → (Nat → Nat)
  | 0, f => f
  | i + 1, f => shuffleFrom rj i (swapF f (i + 1) (rj (i + 1) % (i + 2)))

/-- Result record `{ watermarks, targetShape, targetColor }` of
`createWatermarks` (createWatermarks.js line 36). -/
structure Puzzle where
  watermarks : List Watermark
  targetShape : Shape
  targetColor : Color
deriving DecidableEq, Repr

/-- Placeholder returned by `List.getD` out of range; never reached for
`rows * cols ≥ 2` (in JS the corresponding access would yield `undefined`). -/
def defaultWatermark : Watermark :=
  { idx := 0, shape := Shape.triangle, color := Color.red }

/-- `createWatermarks(rows, cols)` (createWatermarks.js lines 6-37, the
version that picks the target from the generated watermarks; part_001 of
the repository marks this as the fix of the earlier draft that sampled the
target independently).  Steps: index list `0..total-1`; Fisher-Yates
shuffle; keep the first `floor(total/2)` entries; give each chosen cell a
random shape and color; pick the target watermark
`watermarks[Math.floor(Math.random() * watermarks.length)]` and copy its
shape and color.  `rj`, `rs`, `rc` and `rt` are the random draws for the
shuffle, the shapes, the colors and the target pick. -/
def createWatermarks (rj rs rc : Nat → Nat) (rt : Nat) (rows cols : Nat) : Puzzle :=
  let total := rows * cols
  let perm := shuffleFrom rj (total - 1) id
  let half := total / 2
  let chosen := (List.range half).map perm
  let watermarks := chosen.map fun idx =>
    { idx := idx, shape := shapeOf (rs idx), color := colorOf (rc idx) : Watermark }
  let target := watermarks.getD (rt % watermarks.length) defaultWatermark
  { watermarks := watermarks, targetShape := target.shape, targetColor := target.color }

/-- Click action of a recorded click event (`'select'` or `'deselect'`,
PuzzleGrid.jsx). -/
inductive ClickAction where
  | select
  | deselect
deriving DecidableEq, Repr

/-- One recorded click `{ timestamp, cellIndex, action }` (PuzzleGrid.jsx). -/
structure ClickEvent where
  timestamp : ℚ
  cellIndex : Nat
  action : ClickAction
deriving DecidableEq, Repr

/-- The timing record `{ puzzleStartTime, clickTimestamps, validationTime }`
handed to `validateHumanInteraction` (App.jsx line 358). -/
structure TimingRecord where
  puzzleStartTime : ℚ
  clickTimestamps : List ClickEvent
  validationTime : ℚ
deriving DecidableEq, Repr

/-- The diagnostic strings pushed onto `reasons` in
`validateHumanInteraction` (App.jsx lines 355-430), modelled as an
inductive type carrying the interpolated numeric payloads.  For the
too-consistent reason the JS string holds `CV.toFixed(3)` where
`CV = Math.sqrt(variance) / avgInterval`; the constructor carries the two
rational quantities `variance` and `avgInterval` that determine it. -/
inductive Reason where
  | noTimingData
  | tooFastTotal (totalTimeSeconds minTimeSeconds : ℚ)
  | verySlowWarning (totalTimeSeconds : ℚ)
  | tooConsistentIntervals (variance avgInterval : ℚ)
  | fastClickIntervals (count : Nat) (minIntervalMs : ℚ)
  | identicalIntervals (firstInterval : ℚ)
  | noClicksWarning
  | tooFastValidation (timeToValidation minThinkingMs : ℚ)
deriving DecidableEq, Repr

/-- Return value `{ isHuman, reasons }` of `validateHumanInteraction`. -/
structure HumanCheck where
  isHuman : Bool
  reasons : List Reason
deriving DecidableEq, Repr

/-- Consecutive click-interval list
`intervals.push(clickTimestamps[i].timestamp - clickTimestamps[i-1].timestamp)`
(App.jsx lines 382-386), over the timestamp list. -/
def intervalsOf : List ℚ → List ℚ
  | [] => []
  | [_] => []
  | a :: b :: rest => (b - a) :: intervalsOf (b :: rest)

/-- `avgInterval = intervals.reduce((a,b) => a+b, 0) / intervals.length`
(App.jsx line 389); rational division, `0/0 = 0` for the empty list. -/
def meanOf (l : List ℚ) : ℚ :=
  l.sum / (l.length : ℚ)

/-- `variance = intervals.reduce((sum, i) => sum + (i - avg)^2, 0) / intervals.length`
(App.jsx lines 390-392). -/
def varianceOf (l : List ℚ) : ℚ :=
  (l.map fun x => (x - meanOf l) ^ 2).sum / (l.length : ℚ)

/-- The JS comparison `stdDev / avgInterval < 0.15` with
`stdDev = Math.sqrt(variance)` (App.jsx lines 393-398), with the square
root eliminated: for `avgInterval > 0` and `variance ≥ 0` (it is a mean of
squares) `sqrt variance / avgInterval < 0.15` holds iff
`variance < (0.15 * avgInterval)^2`; for `avgInterval < 0` the quotient is
nonpositive so the comparison holds; for `avgInterval = 0` the JS quotient
is `NaN` or `+Infinity` and the comparison is false. -/
def cvBelowMin (variance avgInterval : ℚ) : Bool :=
  if 0 < avgInterval then decide (variance < (15 / 100 * avgInterval) ^ 2)
  else decide (avgInterval < 0)

/-- JS `Math.round`: round half toward positive infinity. -/
def jsRound (q : ℚ) : ℤ :=
  ⌊q + 1 / 2⌋

/-- `validateHumanInteraction(timingData)` (App.jsx lines 353-435).  The JS
body initialises `isHuman = true` and each failed check only ever sets it
to `false`, so the final value is the negated disjunction of the five
check conditions; `reasons` is accumulated in source order.  Checks 3a-3c
sit inside `if (clickTimestamps.length > 1)`, the zero-click warning in its
`else if`, and check 4 inside `if (clickTimestamps.length > 0)`. -/
def validateHumanInteraction (timingData : Option TimingRecord) : HumanCheck :=
  match timingData with
  | none => { isHuman := false, reasons := [Reason.noTimingData] }
  | some td =>
    let totalTimeSeconds := (td.validationTime - td.puzzleStartTime) / 1000
    let stamps := td.clickTimestamps.map ClickEvent.timestamp
    let intervals := intervalsOf stamps
    let avgInterval := meanOf intervals
    let variance := varianceOf intervals
    let tooFastClicks := (intervals.filter fun x => decide (x < 80)).length
    let check1 := decide (totalTimeSeconds < 2)
    let check2 := decide (totalTimeSeconds > 300)
    let many := decide (1 < td.clickTimestamps.length)
    let check3a := many && (cvBelowMin variance avgInterval && decide (3 ≤ intervals.length))
    let check3b := many && decide (0 < tooFastClicks)
    let check3c := many && (decide ((intervals.map jsRound).dedup.length = 1) &&
      decide (3 ≤ intervals.length))
    let anyClick := decide (0 < td.clickTimestamps.length)
    let timeToValidation := td.validationTime - stamps.headD 0
    let check4 := anyClick && decide (timeToValidation < 500)
    { isHuman := !(check1 || check3a || check3b || check3c || check4),
      reasons :=
        (if check1 then [Reason.tooFastTotal totalTimeSeconds 2] else []) ++
        (if check2 then [Reason.verySlowWarning totalTimeSeconds] else []) ++
        (if many then
          (if cvBelowMin variance avgInterval && decide (3 ≤ intervals.length) then
            [Reason.tooConsistentIntervals variance avgInterval] else []) ++
          (if decide (0 < tooFastClicks) then
            [Reason.fastClickIntervals tooFastClicks 80] else []) ++
          (if decide ((intervals.map jsRound).dedup.length = 1) &&
              decide (3 ≤ intervals.length) then
            [Reason.identicalIntervals (intervals.headD 0)] else [])
        else if td.clickTimestamps.length = 0 then [Reason.noClicksWarning] else []) ++
        (if check4 then [Reason.tooFastValidation timeToValidation 500] else []) }

/-- The disjunction of the five conditions of `validateHumanInteraction`
that set `isHuman = false` (checks 1, 3a, 3b, 3c and 4).  The total-time
ceiling (check 2) and the zero-click case do not appear here: they only
append warning reasons. -/
def timingFlips (td : TimingRecord) : Bool :=
  let totalTimeSeconds := (td.validationTime - td.puzzleStartTime) / 1000
  let stamps := td.clickTimestamps.map ClickEvent.timestamp
  let intervals := intervalsOf stamps
  let avgInterval := meanOf intervals
  let variance := varianceOf intervals
  let tooFastClicks := (intervals.filter fun x => decide (x < 80)).length
  let check1 := decide (totalTimeSeconds < 2)
  let many := decide (1 < td.clickTimestamps.length)
  let check3a := many && (cvBelowMin variance avgInterval && decide (3 ≤ intervals.length))
  let check3b := many && decide (0 < tooFastClicks)
  let check3c := many && (decide ((intervals.map jsRound).dedup.length = 1) &&
    decide (3 ≤ intervals.length))
  let anyClick := decide (0 < td.clickTimestamps.length)
  let timeToValidation := td.validationTime - stamps.headD 0
  let check4 := anyClick && decide (timeToValidation < 500)
  check1 || check3a || check3b || check3c || check4

/-- `const MAX_ATTEMPTS = 3` (App.jsx line 293). -/
def MAX_ATTEMPTS : Nat := 3

/-- The `allowedMistakes` field of
`TOLERANCE_CONFIG[currentAttempt] || TOLERANCE_CONFIG[3]`
(App.jsx lines 296-300 and 481): attempt 1 allows 2 mistakes, attempt 2
allows 1, every other attempt number falls back to the strict row with 0. -/
def allowedMistakes (attempt : Nat) : Nat :=
  match attempt with
  | 1 => 2
  | 2 => 1
  | _ => 0

/-- The selection-scoring block of `validatePuzzle` (App.jsx lines 470-500)
factored over the effective attempt number (`attemptCount + 1` at its call
site).  JS `Set`s become `Finset ℕ`; `accuracy` is the exact rational
`correctSelected / correctSet.size`. -/
def scoreSelection (selected correct : Finset Nat) (attempt : Nat) : Bool :=
  let correctSelected := (selected ∩ correct).card
  let incorrectSelected := selected.card - correctSelected
  let missedCorrect := correct.card - correctSelected
  let totalMistakes := incorrectSelected + missedCorrect
  let allowed := allowedMistakes attempt
  if totalMistakes ≤ allowed ∧ 0 < correct.card then
    let accuracy : ℚ := (correctSelected : ℚ) / (correct.card : ℚ)
    if attempt = 1 ∧ 0 < allowed then
      decide (accuracy ≥ 8 / 10) && decide (totalMistakes ≤ allowed)
    else if allowed = 0 then
      decide (correct.card = selected.card) && decide (∀ i ∈ correct, i ∈ selected)
    else
      decide (accuracy ≥ 9 / 10) && decide (totalMistakes ≤ allowed)
  else
    false

/-- The spec's attempt-1 rule in the spec's own words (spec section 4.3 row 1):
pass iff `mistakes ≤ 2` and `correctSelected / |correct| ≥ 0.8` and
`correctSelected / |selected| ≥ 0.8`, with exact rational division (so a
zero denominator yields `0`).  Stated only to compare the spec against
`scoreSelection`. -/
def attempt1SpecPass (selected correct : Finset Nat) : Bool :=
  let correctSelected := (selected ∩ correct).card
  let totalMistakes := (selected.card - correctSelected) + (correct.card - correctSelected)
  decide (totalMistakes ≤ 2) &&
    decide ((correctSelected : ℚ) / (correct.card : ℚ) ≥ 8 / 10) &&
    decide ((correctSelected : ℚ) / (selected.card : ℚ) ≥ 8 / 10)

/-- The spec's attempt-3 rule in the spec's own words (spec section 4.3 row 3):
pass iff `incorrectSelected = 0` and `missedCorrect = 0`.  Stated only to
compare the spec against `scoreSelection`. -/
def exactMatchSpecPass (selected correct : Finset Nat) : Bool :=
  let correctSelected := (selected ∩ correct).card
  decide (selected.card - correctSelected = 0) &&
    decide (correct.card - correctSelected = 0)

/-- The session fields of the App component that `validatePuzzle` reads and
writes: `attemptCount` and `isBlocked` (App.jsx lines 291-292). -/
structure SessionState where
  attemptCount : Nat
  isBlocked : Bool
deriving DecidableEq, Repr

/-- Initial session state: `useState(0)` / `useState(false)`. -/
def initialSession : SessionState :=
  { attemptCount := 0, isBlocked := false }

/-- Session effect of `resetChallengeCompletely` (App.jsx lines 315-323):
`setAttemptCount(0); setIsBlocked(false)`. -/
def resetChallengeCompletely : SessionState :=
  { attemptCount := 0, isBlocked := false }

/-- The watermark state `wm` read by `validatePuzzle`
(App.jsx lines 282, 343, 458-467).  `targetShape`/`targetColor` are
`Option`s to model the JS falsiness check
`if (!wm.targetShape || !wm.targetColor)`. -/
structure WmState where
  watermarks : List Watermark
  targetShape : Option Shape
  targetColor : Option Color
deriving DecidableEq, Repr

/-- `validatePuzzle(selectedIndices, timingData)` (App.jsx lines 438-523) as
a function of the state it reads; the pair returned is the new session
state and the value passed to `setResult`.  Order of the source: blocked
guard, timing gate, missing-target guard, scoring, then attempt/block
update (`setAttemptCount(0)` on success; increment and block once
`newAttemptCount >= MAX_ATTEMPTS` on failure). -/
def validatePuzzle (wm : WmState) (st : SessionState) (selectedIndices : List Nat)
    (timingData : Option TimingRecord) : SessionState × Bool :=
  if st.isBlocked then (st, false)
  else if !(validateHumanInteraction timingData).isHuman then (st, false)
  else
    match wm.targetShape, wm.targetColor with
    | some targetShape, some targetColor =>
      let correct := (wm.watermarks.filter fun w =>
        decide (w.shape = targetShape) && decide (w.color = targetColor)).map Watermark.idx
      let correctSet := correct.toFinset
      let userSet := selectedIndices.toFinset
      let isValid := scoreSelection userSet correctSet (st.attemptCount + 1)
      if isValid then
        ({ attemptCount := 0, isBlocked := st.isBlocked }, true)
      else
        let newAttemptCount := st.attemptCount + 1
        if MAX_ATTEMPTS ≤ newAttemptCount then
          ({ attemptCount := newAttemptCount, isBlocked := true }, false)
        else
          ({ attemptCount := newAttemptCount, isBlocked := st.isBlocked }, false)
    | _, _ => (st, false)

/-- Concrete timing record used by witnesses: no clicks, total time 5 s. -/
def tdHuman : TimingRecord :=
  { puzzleStartTime := 0, clickTimestamps := [], validationTime := 5000 }

/-- Concrete timing record used by witnesses: no clicks, total time 0.9 s. -/
def tdFast : TimingRecord :=
  { puzzleStartTime := 0, clickTimestamps := [], validationTime := 900 }

/-- Concrete timing record used by witnesses: no clicks, total time 400 s. -/
def tdLong : TimingRecord :=
  { puzzleStartTime := 0, clickTimestamps := [], validationTime := 400000 }

/-- Concrete watermark state used by witnesses: one red triangle on cell 0,
which is also the target. -/
def wmFix : WmState :=
  { watermarks := [{ idx := 0, shape := Shape.triangle, color := Color.red }],
    targetShape := some Shape.triangle, targetColor := some Color.red }

/-- Characterization of the attempt-1 branch of `scoreSelection`: the outer
tolerance guard plus the 80 percent `correctSelected / |correct|` accuracy
check. -/
theorem score_one_iff (s c : Finset Nat) :
    scoreSelection s c 1 = true ↔
      0 < c.card ∧
        (s.card - (s ∩ c).card) + (c.card - (s ∩ c).card) ≤ 2 ∧
        (8 : ℚ) / 10 ≤ ((s ∩ c).card : ℚ) / (c.card : ℚ) := by
  simp only [scoreSelection, allowedMistakes]
  by_cases hg : (s.card - (s ∩ c).card) + (c.card - (s ∩ c).card) ≤ 2 ∧ 0 < c.card
  · rw [if_pos hg, if_pos (by norm_num)]
    simp only [Bool.and_eq_true, decide_eq_true_eq, ge_iff_le]
    exact ⟨fun h => ⟨hg.2, h.2, h.1⟩, fun h => ⟨h.2.2, h.2.1⟩⟩
  · rw [if_neg hg]
    simp only [Bool.false_eq_true, false_iff]
    intro h
    exact hg ⟨h.2.1, h.1⟩

/-- Characterization of the attempt-2 branch of `scoreSelection`: at most one
mistake plus the 90 percent `correctSelected / |correct|` accuracy check. -/
theorem score_two_iff (s c : Finset Nat) :
    scoreSelection s c 2 = true ↔
      0 < c.card ∧
        (s.card - (s ∩ c).card) + (c.card - (s ∩ c).card) ≤ 1 ∧
        (9 : ℚ) / 10 ≤ ((s ∩ c).card : ℚ) / (c.card : ℚ) := by
  simp only [scoreSelection, allowedMistakes]
  by_cases hg : (s.card - (s ∩ c).card) + (c.card - (s ∩ c).card) ≤ 1 ∧ 0 < c.card
  · rw [if_pos hg, if_neg (by norm_num), if_neg (by norm_num)]
    simp only [Bool.and_eq_true, decide_eq_true_eq, ge_iff_le]
    exact ⟨fun h => ⟨hg.2, h.2, h.1⟩, fun h => ⟨h.2.2, h.2.1⟩⟩
  · rw [if_neg hg]
    simp only [Bool.false_eq_true, false_iff]
    intro h
    exact hg ⟨h.2.1, h.1⟩

/-- The tolerance fallback `TOLERANCE_CONFIG[attempt] || TOLERANCE_CONFIG[3]`
yields zero allowed mistakes for every attempt number from 3 on. -/
theorem allowedMistakes_of_three_le (attempt : Nat) (h : 3 ≤ attempt) :
    allowedMistakes attempt = 0 := by
  match attempt, h with
  | n + 3, _ => rfl

/-- Characterization of `scoreSelection` for attempt 3 and beyond: pass iff
the correct set is non-empty and the selection equals it. -/
theorem score_ge3_iff (s c : Finset Nat) (attempt : Nat) (h : 3 ≤ attempt) :
    scoreSelection s c attempt = true ↔ 0 < c.card ∧ s = c := by
  simp only [scoreSelection, allowedMistakes_of_three_le attempt h]
  by_cases hg : (s.card - (s ∩ c).card) + (c.card - (s ∩ c).card) ≤ 0 ∧ 0 < c.card
  · rw [if_pos hg, if_neg (by omega), if_pos trivial]
    simp only [Bool.and_eq_true, decide_eq_true_eq]
    constructor
    · rintro ⟨hcard, hsub⟩
      refine ⟨hg.2, ?_⟩
      have hsub2 : c ⊆ s := fun i hi => hsub i hi
      exact (Finset.eq_of_subset_of_card_le hsub2 (le_of_eq hcard.symm)).symm
    · rintro ⟨hc, rfl⟩
      exact ⟨rfl, fun i hi => hi⟩
  · rw [if_neg hg]
    simp only [Bool.false_eq_true, false_iff]
    rintro ⟨hc, rfl⟩
    exact hg ⟨by simp [Finset.inter_self], hc⟩

/-- C2 (amended): on attempt 1 the scorer passes a selection if and only if
the correct set is non-empty, the mistake count
(`incorrectSelected + missedCorrect`) is at most 2, and
`correctSelected / |correct| ≥ 0.8`.  The spec's additional selection
accuracy ratio `correctSelected / |selected| ≥ 0.8` is not checked by the
code. -/
theorem attempt1_pass_iff (selected correct : Finset Nat) :
    scoreSelection selected correct 1 = true ↔
      0 < correct.card ∧
        (selected.card - (selected ∩ correct).card) +
          (correct.card - (selected ∩ correct).card) ≤ 2 ∧
        ((selected ∩ correct).card : ℚ) / (correct.card : ℚ) ≥ 8 / 10 := by
  simpa [ge_iff_le] using score_one_iff selected correct

/-- C2 counterexample: with `correct = {0, 1}` and `selected = {0, 1, 2, 3}`
(both correct cells plus two wrong ones) the code passes at attempt 1
(2 mistakes, `correctSelected / |correct| = 1`), while the spec's attempt-1
rule rejects it because `correctSelected / |selected| = 1/2 < 0.8`. -/
theorem attempt1_spec_counterexample :
    scoreSelection {0, 1, 2, 3} {0, 1} 1 = true ∧
      attempt1SpecPass {0, 1, 2, 3} {0, 1} = false := by
  have h1 : (({0, 1, 2, 3} : Finset Nat) ∩ {0, 1}).card = 2 := by decide
  have h2 : (({0, 1} : Finset Nat)).card = 2 := by decide
  have h3 : (({0, 1, 2, 3} : Finset Nat)).card = 4 := by decide
  constructor
  · rw [score_one_iff]
    refine ⟨by decide, by decide, ?_⟩
    rw [h1, h2]
    norm_num
  · simp only [attempt1SpecPass, h1, h3]
    rw [Bool.eq_false_iff]
    intro hcontra
    rw [Bool.and_eq_true, Bool.and_eq_true] at hcontra
    have hratio := hcontra.2
    rw [decide_eq_true_eq] at hratio
    norm_num at hratio

/-- C5 (amended): on attempt 3, and on every attempt number beyond 3, the
scorer passes a selection if and only if the correct set is non-empty and
the selection set exactly equals the correct set. -/
theorem attempt3_pass_iff (selected correct : Finset Nat) (attempt : Nat)
    (h : 3 ≤ attempt) :
    scoreSelection selected correct attempt = true ↔
      0 < correct.card ∧ selected = correct :=
  score_ge3_iff selected correct attempt h

/-- Witness for `attempt3_pass_iff` at attempt 3 with `selected = correct = {1}`. -/
theorem attempt3_pass_iff_witness :
    scoreSelection {1} {1} 3 = true :=
  (attempt3_pass_iff {1} {1} 3 (by decide)).mpr ⟨by decide, rfl⟩

/-- C5 counterexample: with `selected = correct = ∅` both `incorrectSelected`
and `missedCorrect` are 0 (so the claim's rule says pass), but the code's
`correctSet.size > 0` guard makes the scorer fail. -/
theorem attempt3_spec_counterexample :
    scoreSelection (∅ : Finset Nat) ∅ 3 = false ∧
      exactMatchSpecPass (∅ : Finset Nat) ∅ = true := by
  constructor
  · decide
  · decide

/-- C6 (confirmed): for a fixed selection and a fixed non-empty correct set
the tolerance tiers are monotone: passing at attempt 3 implies passing at
attempt 2, and passing at attempt 2 implies passing at attempt 1. -/
theorem tolerance_tiers_monotone (selected correct : Finset Nat)
    (h : 0 < correct.card) :
    (scoreSelection selected correct 3 = true →
      scoreSelection selected correct 2 = true) ∧
    (scoreSelection selected correct 2 = true →
      scoreSelection selected correct 1 = true) := by
  constructor
  · intro h3
    obtain ⟨hc, heq⟩ := (score_ge3_iff selected correct 3 le_rfl).mp h3
    subst heq
    rw [score_two_iff]
    refine ⟨hc, by simp [Finset.inter_self], ?_⟩
    rw [Finset.inter_self, div_self (by exact_mod_cast hc.ne')]
    norm_num
  · intro h2
    obtain ⟨hc, hm, ha⟩ := (score_two_iff selected correct).mp h2
    rw [score_one_iff]
    exact ⟨hc, by omega, le_trans (by norm_num) ha⟩

/-- Witness for `tolerance_tiers_monotone` with `selected = correct = {0}`:
the perfect selection passes attempt 3, hence attempt 2. -/
theorem tolerance_tiers_monotone_witness :
    scoreSelection {0} {0} 2 = true :=
  (tolerance_tiers_monotone {0} {0} (by decide)).1 (by decide)

/-- The Fisher-Yates swap step is composition with a transposition. -/
theorem swapF_eq_comp (f : Nat → Nat) (i j : Nat) :
    swapF f i j = f ∘ Equiv.swap i j := by
  funext k
  simp only [swapF, Function.comp_apply, Equiv.swap_apply_def]
  split_ifs <;> rfl

/-- Swapping two positions preserves injectivity of the array model. -/
theorem swapF_injective (f : Nat → Nat) (i j : Nat) (hf : Function.Injective f) :
    Function.Injective (swapF f i j) := by
  rw [swapF_eq_comp]
  exact hf.comp (Equiv.injective _)

/-- Swapping two in-range positions preserves the range bound. -/
theorem swapF_lt (f : Nat → Nat) (i j n : Nat) (hf : ∀ k, k < n → f k < n)
    (hi : i < n) (hj : j < n) : ∀ k, k < n → swapF f i j k < n := by
  intro k hk
  unfold swapF
  split_ifs with hki hkj
  · exact hf j hj
  · exact hf i hi
  · exact hf k hk

/-- The whole Fisher-Yates loop preserves injectivity. -/
theorem shuffleFrom_injective (rj : Nat → Nat) :
    ∀ (i : Nat) (f : Nat → Nat), Function.Injective f →
      Function.Injective (shuffleFrom rj i f)
  | 0, f, hf => hf
  | i + 1, f, hf =>
    shuffleFrom_injective rj i _
      (swapF_injective f (i + 1) (rj (i + 1) % (i + 2)) hf)

/-- The whole Fisher-Yates loop preserves the range bound, provided the
loop starts below the bound. -/
theorem shuffleFrom_lt (rj : Nat → Nat) (n : Nat) :
    ∀ (i : Nat) (f : Nat → Nat), i < n → (∀ k, k < n → f k < n) →
      ∀ k, k < n → shuffleFrom rj i f k < n
  | 0, f, _, hf, k, hk => hf k hk
  | i + 1, f, hin, hf, k, hk =>
    shuffleFrom_lt rj n i _ (Nat.lt_of_succ_lt hin)
      (swapF_lt f (i + 1) (rj (i + 1) % (i + 2)) n hf hin
        (lt_of_le_of_lt (Nat.le_of_lt_succ (Nat.mod_lt _ (Nat.succ_pos _))) hin))
      k hk

/-- C9 (confirmed): for `rows * cols ≥ 2` the generator returns exactly
`floor(rows * cols / 2)` watermarks, their cell indices are pairwise
distinct, and each index lies in `[0, rows * cols)`. -/
theorem createWatermarks_coverage (rj rs rc : Nat → Nat) (rt rows cols : Nat)
    (h : 2 ≤ rows * cols) :
    (createWatermarks rj rs rc rt rows cols).watermarks.length = rows * cols / 2 ∧
    ((createWatermarks rj rs rc rt rows cols).watermarks.map Watermark.idx).Nodup ∧
    ∀ w ∈ (createWatermarks rj rs rc rt rows cols).watermarks, w.idx < rows * cols := by
  have hinj : Function.Injective (shuffleFrom rj (rows * cols - 1) id) :=
    shuffleFrom_injective rj (rows * cols - 1) id fun a b hab => hab
  refine ⟨?_, ?_, ?_⟩
  · simp [createWatermarks]
  · have hmap : ((createWatermarks rj rs rc rt rows cols).watermarks.map Watermark.idx) =
        (List.range (rows * cols / 2)).map (shuffleFrom rj (rows * cols - 1) id) := by
      simp [createWatermarks, List.map_map, Function.comp]
    rw [hmap]
    exact List.Nodup.map hinj (List.nodup_range _)
  · intro w hw
    simp only [createWatermarks, List.mem_map, List.mem_range] at hw
    obtain ⟨k, ⟨a, ha, rfl⟩, rfl⟩ := hw
    have ha2 : a < rows * cols := lt_of_lt_of_le ha (Nat.div_le_self _ _)
    exact shuffleFrom_lt rj (rows * cols) (rows * cols - 1) id
      (Nat.sub_lt (by omega) one_pos) (fun b hb => hb) a ha2

/-- Witness for `createWatermarks_coverage` on a 4 by 4 grid. -/
theorem createWatermarks_coverage_witness :
    2 ≤ 4 * 4 ∧
      ((createWatermarks (fun _ => 0) (fun _ => 0) (fun _ => 0) 0 4 4).watermarks.length
        = 4 * 4 / 2) :=
  ⟨by decide, (createWatermarks_coverage (fun _ => 0) (fun _ => 0) (fun _ => 0) 0 4 4
    (by decide)).1⟩

/-- C1 (confirmed): every puzzle returned by the generator (for
`rows * cols ≥ 2`) contains a watermark whose shape and color both equal
the target, because the target is copied from a generated watermark. -/
theorem createWatermarks_target_satisfiable (rj rs rc : Nat → Nat) (rt rows cols : Nat)
    (h : 2 ≤ rows * cols) :
    ∃ w ∈ (createWatermarks rj rs rc rt rows cols).watermarks,
      w.shape = (createWatermarks rj rs rc rt rows cols).targetShape ∧
      w.color = (createWatermarks rj rs rc rt rows cols).targetColor := by
  have hlen : (createWatermarks rj rs rc rt rows cols).watermarks.length = rows * cols / 2 := by
    simp [createWatermarks]
  have hpos : 0 < (createWatermarks rj rs rc rt rows cols).watermarks.length := by
    rw [hlen]
    omega
  set W := (createWatermarks rj rs rc rt rows cols).watermarks with hW
  have hm : rt % W.length < W.length := Nat.mod_lt _ hpos
  have htarget : (createWatermarks rj rs rc rt rows cols).targetShape =
      (W.getD (rt % W.length) defaultWatermark).shape ∧
      (createWatermarks rj rs rc rt rows cols).targetColor =
      (W.getD (rt % W.length) defaultWatermark).color := by
    constructor <;> rfl
  refine ⟨W.getD (rt % W.length) defaultWatermark, ?_, htarget.1.symm, htarget.2.symm⟩
  rw [List.getD_eq_getElem?_getD, List.getElem?_eq_getElem hm, Option.getD_some]
  exact List.getElem_mem hm

/-- Witness for `createWatermarks_target_satisfiable` on a 2 by 3 grid with
concrete random draws. -/
theorem createWatermarks_target_satisfiable_witness :
    2 ≤ 2 * 3 ∧
      ∃ w ∈ (createWatermarks (fun _ => 1) (fun _ => 2) (fun _ => 1) 3 2 3).watermarks,
        w.shape = (createWatermarks (fun _ => 1) (fun _ => 2) (fun _ => 1) 3 2 3).targetShape ∧
        w.color = (createWatermarks (fun _ => 1) (fun _ => 2) (fun _ => 1) 3 2 3).targetColor :=
  ⟨by decide, createWatermarks_target_satisfiable (fun _ => 1) (fun _ => 2) (fun _ => 1) 3 2 3
    (by decide)⟩

/-- The computed `isHuman` flag is exactly the negation of the five
flipping checks collected in `timingFlips`. -/
theorem isHuman_eq_not_timingFlips (td : TimingRecord) :
    (validateHumanInteraction (some td)).isHuman = !timingFlips td := rfl

/-- C7 (confirmed): whenever `validationTime - puzzleStartTime < 2000` ms
the heuristic returns `isHuman = false` and its reasons contain the
too-fast reason carrying the measured elapsed seconds and the 2-second
threshold. -/
theorem timing_floor_rejects (td : TimingRecord)
    (h : td.validationTime - td.puzzleStartTime < 2000) :
    (validateHumanInteraction (some td)).isHuman = false ∧
    Reason.tooFastTotal ((td.validationTime - td.puzzleStartTime) / 1000) 2 ∈
      (validateHumanInteraction (some td)).reasons := by
  have h2 : (td.validationTime - td.puzzleStartTime) / 1000 < 2 := by
    rw [div_lt_iff₀ (by norm_num : (0 : ℚ) < 1000)]
    linarith
  constructor
  · simp [validateHumanInteraction, h2]
  · simp [validateHumanInteraction, h2]

/-- C8 (confirmed): the 300-second ceiling and the zero-click condition
only append warning reasons; `isHuman` equals the negation of
`timingFlips`, which mentions neither condition, so a record passing all
other checks stays `isHuman = true`. -/
theorem advisory_checks_never_flip (td : TimingRecord) :
    ((td.validationTime - td.puzzleStartTime) / 1000 > 300 →
      Reason.verySlowWarning ((td.validationTime - td.puzzleStartTime) / 1000) ∈
        (validateHumanInteraction (some td)).reasons) ∧
    (td.clickTimestamps = [] →
      Reason.noClicksWarning ∈ (validateHumanInteraction (some td)).reasons) ∧
    (validateHumanInteraction (some td)).isHuman = !timingFlips td := by
  refine ⟨?_, ?_, rfl⟩
  · intro h
    simp [validateHumanInteraction, h]
  · intro h
    simp [validateHumanInteraction, h, intervalsOf]

/-- Witness for `timing_floor_rejects`: a 0.9-second record. -/
theorem timing_floor_rejects_witness :
    tdFast.validationTime - tdFast.puzzleStartTime < 2000 ∧
      (validateHumanInteraction (some tdFast)).isHuman = false :=
  ⟨by norm_num [tdFast], (timing_floor_rejects tdFast (by norm_num [tdFast])).1⟩

/-- Witness for `advisory_checks_never_flip`: a 400-second record with no
clicks still yields `isHuman = true` with both warnings present. -/
theorem advisory_checks_never_flip_witness :
    Reason.verySlowWarning ((tdLong.validationTime - tdLong.puzzleStartTime) / 1000) ∈
      (validateHumanInteraction (some tdLong)).reasons ∧
    Reason.noClicksWarning ∈ (validateHumanInteraction (some tdLong)).reasons ∧
    (validateHumanInteraction (some tdLong)).isHuman = true := by
  obtain ⟨hslow, hclick, hflip⟩ := advisory_checks_never_flip tdLong
  refine ⟨hslow (by norm_num [tdLong]), hclick rfl, ?_⟩
  rw [hflip]
  norm_num [timingFlips, tdLong, intervalsOf, meanOf, varianceOf, cvBelowMin]

/-- C3 (confirmed): if the timing heuristic says not human, validation
returns a failing result and the outcome does not depend on the selection
at all, so the selection-scoring logic is never consulted. -/
theorem timing_failure_preempts_scoring (wm : WmState) (st : SessionState)
    (selectedIndices : List Nat) (timingData : Option TimingRecord)
    (h : (validateHumanInteraction timingData).isHuman = false) :
    (validatePuzzle wm st selectedIndices timingData).2 = false ∧
    ∀ otherSelection : List Nat,
      validatePuzzle wm st selectedIndices timingData =
        validatePuzzle wm st otherSelection timingData := by
  constructor
  · by_cases hb : st.isBlocked
    · simp [validatePuzzle, hb]
    · simp [validatePuzzle, hb, h]
  · intro otherSelection
    by_cases hb : st.isBlocked
    · simp [validatePuzzle, hb]
    · simp [validatePuzzle, hb, h]

/-- Witness for `timing_failure_preempts_scoring` with a missing timing
record (`isHuman = false`) and two different selections. -/
theorem timing_failure_preempts_scoring_witness :
    (validatePuzzle wmFix initialSession [] none).2 = false ∧
      validatePuzzle wmFix initialSession [] none =
        validatePuzzle wmFix initialSession [0] none :=
  ⟨(timing_failure_preempts_scoring wmFix initialSession [] none rfl).1,
    (timing_failure_preempts_scoring wmFix initialSession [] none rfl).2 [0]⟩

/-- C10 (confirmed): a validation rejected before scoring, because the
session is blocked or the timing heuristic failed, leaves the session
state (attempt counter and blocked flag) unchanged and yields a failing
result. -/
theorem rejected_validation_preserves_state (wm : WmState) (st : SessionState)
    (selectedIndices : List Nat) (timingData : Option TimingRecord)
    (h : st.isBlocked = true ∨ (validateHumanInteraction timingData).isHuman = false) :
    (validatePuzzle wm st selectedIndices timingData).1 = st ∧
    (validatePuzzle wm st selectedIndices timingData).2 = false := by
  rcases h with hb | hh
  · constructor <;> simp [validatePuzzle, hb]
  · by_cases hb : st.isBlocked
    · constructor <;> simp [validatePuzzle, hb]
    · constructor <;> simp [validatePuzzle, hb, hh]

/-- Witness for `rejected_validation_preserves_state` on a blocked session. -/
theorem rejected_validation_preserves_state_witness :
    (validatePuzzle wmFix { attemptCount := 2, isBlocked := true } [0] none).1 =
      { attemptCount := 2, isBlocked := true } ∧
    (validatePuzzle wmFix { attemptCount := 2, isBlocked := true } [0] none).2 = false :=
  rejected_validation_preserves_state wmFix { attemptCount := 2, isBlocked := true } [0] none
    (Or.inl rfl)

/-- After a score failure (session not blocked, timing passed, targets
present, failing result) the attempt counter is incremented, and the
blocked flag is set exactly when the new count reaches `MAX_ATTEMPTS`. -/
theorem validate_fail_step (wm : WmState) (st : SessionState)
    (selectedIndices : List Nat) (timingData : Option TimingRecord)
    (hb : st.isBlocked = false)
    (hh : (validateHumanInteraction timingData).isHuman = true)
    (hts : wm.targetShape.isSome = true) (htc : wm.targetColor.isSome = true)
    (hf : (validatePuzzle wm st selectedIndices timingData).2 = false) :
    (validatePuzzle wm st selectedIndices timingData).1 =
      { attemptCount := st.attemptCount + 1,
        isBlocked := decide (MAX_ATTEMPTS ≤ st.attemptCount + 1) } := by
  obtain ⟨ts, hts'⟩ := Option.isSome_iff_exists.mp hts
  obtain ⟨tc, htc'⟩ := Option.isSome_iff_exists.mp htc
  simp only [validatePuzzle, hb, hh, hts', htc', Bool.not_true, if_false,
    Bool.false_eq_true] at hf ⊢
  by_cases hv : scoreSelection selectedIndices.toFinset
      ((wm.watermarks.filter fun w =>
        decide (w.shape = ts) && decide (w.color = tc)).map Watermark.idx).toFinset
      (st.attemptCount + 1) = true
  · rw [if_pos hv] at hf
    simp at hf
  · rw [if_neg hv] at hf ⊢
    by_cases hmax : MAX_ATTEMPTS ≤ st.attemptCount + 1
    · simp [hmax]
    · simp [hmax, hb]


/-- A successful validation always resets the attempt counter to zero. -/
theorem validate_success_resets (wm : WmState) (st : SessionState)
    (selectedIndices : List Nat) (timingData : Option TimingRecord)
    (hsucc : (validatePuzzle wm st selectedIndices timingData).2 = true) :
    (validatePuzzle wm st selectedIndices timingData).1.attemptCount = 0 := by
  by_cases hb : st.isBlocked
  · simp [validatePuzzle, hb] at hsucc
  · by_cases hh : (validateHumanInteraction timingData).isHuman
    · rcases hwts : wm.targetShape with _ | ts
      · simp [validatePuzzle, hb, hh, hwts] at hsucc
      · rcases hwtc : wm.targetColor with _ | tc
        · simp [validatePuzzle, hb, hh, hwts, hwtc] at hsucc
        · by_cases hv : scoreSelection selectedIndices.toFinset
              ((wm.watermarks.filter fun w =>
                decide (w.shape = ts) && decide (w.color = tc)).map Watermark.idx).toFinset
              (st.attemptCount + 1) = true
          · simp [validatePuzzle, hb, hh, hwts, hwtc, hv]
          · simp only [validatePuzzle, hb, hh, hwts, hwtc, Bool.not_true, if_false,
              Bool.false_eq_true] at hsucc
            rw [if_neg hv] at hsucc
            by_cases hmax : MAX_ATTEMPTS ≤ st.attemptCount + 1 <;>
              simp [hmax] at hsucc
    · rw [Bool.not_eq_true] at hh
      simp [validatePuzzle, hb, hh] at hsucc

/-- The 5-second no-click record passes the timing heuristic. -/
theorem validateHuman_tdHuman_eval :
    (validateHumanInteraction (some tdHuman)).isHuman = true := by
  norm_num [validateHumanInteraction, tdHuman, intervalsOf]

/-- Selecting nothing against the correct set `{0}` fails attempt 1. -/
theorem score_empty_vs_zero_one : scoreSelection ∅ {0} 1 = false := by
  rw [Bool.eq_false_iff]
  intro hpass
  obtain ⟨_, _, hacc⟩ := (score_one_iff ∅ {0}).mp hpass
  rw [Finset.empty_inter] at hacc
  norm_num at hacc

/-- Selecting nothing against the correct set `{0}` fails attempt 2. -/
theorem score_empty_vs_zero_two : scoreSelection ∅ {0} 2 = false := by
  rw [Bool.eq_false_iff]
  intro hpass
  obtain ⟨_, _, hacc⟩ := (score_two_iff ∅ {0}).mp hpass
  rw [Finset.empty_inter] at hacc
  norm_num at hacc

/-- Selecting nothing against the correct set `{0}` fails attempt 3. -/
theorem score_empty_vs_zero_three : scoreSelection ∅ {0} 3 = false := by decide

/-- C4 (confirmed): starting from the initial session state, three
consecutive score failures (timing passed, targets present, failing
result each time) leave the session blocked with `attemptCount = 3`; any
successful validation resets the attempt counter to 0; while blocked,
every validation returns the unchanged state with a failing result; and
the full reset `resetChallengeCompletely` clears both fields. -/
theorem session_attempt_block_lifecycle
    (wm1 wm2 wm3 : WmState) (sel1 sel2 sel3 : List Nat)
    (td1 td2 td3 : Option TimingRecord) (st1 st2 st3 : SessionState)
    (hh1 : (validateHumanInteraction td1).isHuman = true)
    (hts1 : wm1.targetShape.isSome = true) (htc1 : wm1.targetColor.isSome = true)
    (hh2 : (validateHumanInteraction td2).isHuman = true)
    (hts2 : wm2.targetShape.isSome = true) (htc2 : wm2.targetColor.isSome = true)
    (hh3 : (validateHumanInteraction td3).isHuman = true)
    (hts3 : wm3.targetShape.isSome = true) (htc3 : wm3.targetColor.isSome = true)
    (e1 : validatePuzzle wm1 initialSession sel1 td1 = (st1, false))
    (e2 : validatePuzzle wm2 st1 sel2 td2 = (st2, false))
    (e3 : validatePuzzle wm3 st2 sel3 td3 = (st3, false)) :
    (st3.isBlocked = true ∧ st3.attemptCount = 3) ∧
    (∀ (wm : WmState) (st : SessionState) (sel : List Nat) (td : Option TimingRecord),
      (validatePuzzle wm st sel td).2 = true →
        (validatePuzzle wm st sel td).1.attemptCount = 0) ∧
    (∀ (wm : WmState) (st : SessionState) (sel : List Nat) (td : Option TimingRecord),
      st.isBlocked = true → validatePuzzle wm st sel td = (st, false)) ∧
    resetChallengeCompletely.attemptCount = 0 ∧
    resetChallengeCompletely.isBlocked = false := by
  have hst1 : st1 = { attemptCount := 1, isBlocked := false } := by
    have := validate_fail_step wm1 initialSession sel1 td1 rfl hh1 hts1 htc1
      (by rw [e1])
    rw [e1] at this
    simpa [initialSession, MAX_ATTEMPTS] using this
  have hst2 : st2 = { attemptCount := 2, isBlocked := false } := by
    have := validate_fail_step wm2 st1 sel2 td2 (by rw [hst1]) hh2 hts2 htc2
      (by rw [e2])
    rw [e2, hst1] at this
    simpa [MAX_ATTEMPTS] using this
  have hst3 : st3 = { attemptCount := 3, isBlocked := true } := by
    have := validate_fail_step wm3 st2 sel3 td3 (by rw [hst2]) hh3 hts3 htc3
      (by rw [e3])
    rw [e3, hst2] at this
    simpa [MAX_ATTEMPTS] using this
  refine ⟨by rw [hst3]; exact ⟨rfl, rfl⟩, ?_, ?_, rfl, rfl⟩
  · intro wm st sel td hsucc
    exact validate_success_resets wm st sel td hsucc
  · intro wm st sel td hblocked
    simp [validatePuzzle, hblocked]


/-- Concrete failing validation: empty selection, attempt counter 0 to 1. -/
theorem validatePuzzle_fail_eval_one :
    validatePuzzle wmFix initialSession [] (some tdHuman) =
      ({ attemptCount := 1, isBlocked := false }, false) := by
  simp [validatePuzzle, initialSession, wmFix, validateHuman_tdHuman_eval,
    score_empty_vs_zero_one, MAX_ATTEMPTS]

/-- Concrete failing validation: empty selection, attempt counter 1 to 2. -/
theorem validatePuzzle_fail_eval_two :
    validatePuzzle wmFix { attemptCount := 1, isBlocked := false } [] (some tdHuman) =
      ({ attemptCount := 2, isBlocked := false }, false) := by
  simp [validatePuzzle, wmFix, validateHuman_tdHuman_eval,
    score_empty_vs_zero_two, MAX_ATTEMPTS]

/-- Concrete failing validation: empty selection, attempt counter 2 to 3,
which blocks the session. -/
theorem validatePuzzle_fail_eval_three :
    validatePuzzle wmFix { attemptCount := 2, isBlocked := false } [] (some tdHuman) =
      ({ attemptCount := 3, isBlocked := true }, false) := by
  simp [validatePuzzle, wmFix, validateHuman_tdHuman_eval,
    score_empty_vs_zero_three, MAX_ATTEMPTS]

/-- Witness for `session_attempt_block_lifecycle`: three concrete failing
validations from the initial state end in a blocked session. -/
theorem session_attempt_block_lifecycle_witness :
    validatePuzzle wmFix initialSession [] (some tdHuman) =
      ({ attemptCount := 1, isBlocked := false }, false) ∧
    validatePuzzle wmFix { attemptCount := 1, isBlocked := false } [] (some tdHuman) =
      ({ attemptCount := 2, isBlocked := false }, false) ∧
    validatePuzzle wmFix { attemptCount := 2, isBlocked := false } [] (some tdHuman) =
      ({ attemptCount := 3, isBlocked := true }, false) ∧
    ({ attemptCount := 3, isBlocked := true } : SessionState).isBlocked = true ∧
    ({ attemptCount := 3, isBlocked := true } : SessionState).attemptCount = 3 :=
  ⟨validatePuzzle_fail_eval_one, validatePuzzle_fail_eval_two, validatePuzzle_fail_eval_three,
    (session_attempt_block_lifecycle wmFix wmFix wmFix [] [] []
      (some tdHuman) (some tdHuman) (some tdHuman) _ _ _
      validateHuman_tdHuman_eval rfl rfl
      validateHuman_tdHuman_eval rfl rfl
      validateHuman_tdHuman_eval rfl rfl
      validatePuzzle_fail_eval_one validatePuzzle_fail_eval_two
      validatePuzzle_fail_eval_three).1⟩

end Captcha
